import Mathlib

/-!
Shallow embedding of `funimpute/outliers.py`: outlier detection (IQR and
z-score) and the rule-based handling-strategy selector, together with
theorems checking the natural-language specification against this code.

Modelling conventions:
* Python floats are modelled by `ℚ` (exact arithmetic); the IEEE `NaN`
  sentinel and Python's `None` are both modelled by `none : Option ℚ`,
  since the code treats either as "bound undefined" and every comparison
  of `NaN` with a number is false.
* A pandas series is a `List (Option ℚ)`: `none` entries are the missing
  values dropped by `dropna()`; `count()` is the number of `some` entries.
* `data_type` is a string, as in the Python code, compared literally
  against "integer", "float", "categorical".
-/

/-- Handling strategy enumeration from `funimpute.models.OutlierHandling`
(the three variants referenced by `outliers.py`). -/
inductive OutlierHandling where
  | LEAVE_AS_IS
  | CAP_TO_BOUNDS
  | CONVERT_TO_NAN
deriving DecidableEq, Repr

/-- Column metadata as used by `outliers.py`: a data-type tag, the
unique-identifier flag, and optional declared business bounds. -/
structure ColumnMetadata where
  data_type : String
  unique_flag : Bool
  min_value : Option ℚ
  max_value : Option ℚ
deriving DecidableEq, Repr

/-- Analysis configuration as used by `outliers.py`: the IQR multiplier
and the outlier-percentage threshold. -/
structure AnalysisConfig where
  iqr_multiplier : ℚ
  outlier_threshold : ℚ
deriving DecidableEq, Repr

/-- Result record from `funimpute.models.OutlierAnalysis`, with the fields
`analyze_outliers` fills in. -/
structure OutlierAnalysis where
  outlier_count : ℕ
  outlier_percentage : ℚ
  lower_bound : Option ℚ
  upper_bound : Option ℚ
  outlier_values : List ℚ
  handling_strategy : OutlierHandling
  rationale : String
deriving DecidableEq, Repr

/-- Round a rational to the nearest integer, ties to even — the rounding
used when Python formats a percentage with one decimal (`:.1%`). -/
def roundHalfEven (x : ℚ) : ℤ :=
  let f := ⌊x⌋
  let r := x - (f : ℚ)
  if r < 1/2 then f
  else if 1/2 < r then f + 1
  else if f % 2 = 0 then f else f + 1

/-- Embedding of the Python f-string `f"\x7boutlier_percentage:.1%\x7d"`:
the fraction is scaled to a percentage and printed with one decimal. -/
def formatPct (p : ℚ) : String :=
  let n := roundHalfEven (p * 1000)
  toString (n / 10) ++ "." ++ toString (n % 10).toNat ++ "%"

/-- Embedding of Python string interpolation of an `Optional[float]`
(used for `metadata.min_value` / `metadata.max_value` in a rationale):
`None` prints as "None", a number prints as itself. -/
def formatOptQ : Option ℚ → String
  | none => "None"
  | some q => toString q

/-- Modelled from the spec: `pandas.Series.quantile` with the default
linear interpolation between closest ranks (library code, not under
`src/`). With the values sorted ascending as `s` of length `n`, the
`q`-quantile sits at position `q·(n-1)`; it is the element there when the
position is integral, and otherwise interpolates linearly between the two
neighbouring elements. Only called on nonempty lists. -/
def quantileLinear (xs : List ℚ) (q : ℚ) : ℚ :=
  let s := List.insertionSort (· ≤ ·) xs
  let n := s.length
  let pos : ℚ := q * ((n : ℚ) - 1)
  let i : ℤ := ⌊pos⌋
  let lo := s.getD i.toNat 0
  let hi := s.getD (i.toNat + 1) lo
  lo + (pos - (i : ℚ)) * (hi - lo)

/-- Embedding of `detect_outliers_iqr` (`outliers.py` lines 13-45): drop
missing entries; on an empty remainder return no outliers and NaN bounds
(`none`); otherwise compute Q1, Q3, the IQR fences, and filter the cleaned
values strictly outside the fences, keeping their original order. -/
def detect_outliers_iqr (series : List (Option ℚ)) (iqr_multiplier : ℚ) :
    List ℚ × Option ℚ × Option ℚ :=
  let clean_series := series.filterMap id
  if clean_series.length = 0 then ([], none, none)
  else
    let q1 := quantileLinear clean_series (1/4)
    let q3 := quantileLinear clean_series (3/4)
    let iqr := q3 - q1
    let lower_bound := q1 - iqr_multiplier * iqr
    let upper_bound := q3 + iqr_multiplier * iqr
    let outliers := clean_series.filter fun x =>
      decide (x < lower_bound) || decide (x > upper_bound)
    (outliers, some lower_bound, some upper_bound)

/-- Embedding of `detect_outliers_zscore` (`outliers.py` lines 48-70).
`scipy.stats.zscore` computes `(x - mean) / std` with the population
standard deviation `std = sqrt(var)`. Over the rationals the flagging
condition `|x - mean| / sqrt(var) > threshold` is expressed without a
square root: when `var = 0` every z-score is NaN (0/0) and the strict
comparison with the threshold is false, so nothing is flagged; when
`var > 0`, for a nonnegative threshold the condition is equivalent to
`(x - mean)^2 > threshold^2 * var`, and for a negative threshold it always
holds since `|z| ≥ 0`. -/
def detect_outliers_zscore (series : List (Option ℚ)) (threshold : ℚ) :
    List ℚ :=
  let clean_series := series.filterMap id
  if clean_series.length = 0 then []
  else
    let n : ℚ := clean_series.length
    let mean := clean_series.sum / n
    let var := (clean_series.map fun x => (x - mean) ^ 2).sum / n
    if var = 0 then []
    else
      clean_series.filter fun x =>
        decide (threshold < 0) || decide ((x - mean) ^ 2 > threshold ^ 2 * var)

/-- Embedding of the business-rule check inside `suggest_outlier_handling`
(`outliers.py` lines 124-128): `violates_business_rules` is true when a
declared minimum exceeds the statistical lower bound or a declared maximum
is below the statistical upper bound; a comparison against a missing (NaN)
statistical bound is false, as in Python. -/
def violatesBusinessRules (metadata : ColumnMetadata)
    (lower_bound upper_bound : Option ℚ) : Bool :=
  (match metadata.min_value, lower_bound with
   | some mn, some lb => decide (lb < mn)
   | _, _ => false) ||
  (match metadata.max_value, upper_bound with
   | some mx, some ub => decide (ub > mx)
   | _, _ => false)

/-- Embedding of `suggest_outlier_handling` (`outliers.py` lines 73-158).
The Python dict argument is passed as its four entries
`(outlier_count, outlier_percentage, lower_bound, upper_bound)`. -/
def suggest_outlier_handling (outlier_count : ℕ) (outlier_percentage : ℚ)
    (lower_bound upper_bound : Option ℚ)
    (metadata : ColumnMetadata) (config : AnalysisConfig) :
    OutlierHandling × String :=
  if outlier_count = 0 then
    (OutlierHandling.LEAVE_AS_IS, "No outliers detected")
  else if outlier_percentage > 1/5 then
    (OutlierHandling.LEAVE_AS_IS,
      "High outlier percentage (" ++ formatPct outlier_percentage ++
      ") suggests potential data distribution issue - investigate before handling")
  else if metadata.unique_flag then
    (OutlierHandling.LEAVE_AS_IS,
      "Unique identifier column - outliers should not be modified")
  else if metadata.data_type = "categorical" then
    (OutlierHandling.LEAVE_AS_IS,
      "Categorical data - outliers represent valid categories")
  else if (metadata.min_value.isSome || metadata.max_value.isSome) &&
      violatesBusinessRules metadata lower_bound upper_bound then
    (OutlierHandling.CAP_TO_BOUNDS,
      "Outliers violate business rules (min: " ++ formatOptQ metadata.min_value ++
      ", max: " ++ formatOptQ metadata.max_value ++ ") - cap to valid range")
  else if outlier_percentage < config.outlier_threshold &&
      (metadata.data_type = "integer" || metadata.data_type = "float") then
    (OutlierHandling.CAP_TO_BOUNDS,
      "Low outlier percentage (" ++ formatPct outlier_percentage ++
      ") - cap to statistical bounds to preserve data distribution")
  else if outlier_percentage < 1/10 then
    (OutlierHandling.CONVERT_TO_NAN,
      "Medium outlier percentage (" ++ formatPct outlier_percentage ++
      ") - convert to NaN for imputation to avoid bias")
  else
    (OutlierHandling.LEAVE_AS_IS,
      "Outlier percentage (" ++ formatPct outlier_percentage ++
      ") requires manual review")

/-- Embedding of `analyze_outliers` (`outliers.py` lines 161-219): skip
detection for non-numeric declared types; otherwise run the IQR detector,
compute the outlier percentage guarding division by zero, ask the selector
for a strategy, and assemble the result with the outlier sample truncated
to its first 10 entries. -/
def analyze_outliers (series : List (Option ℚ)) (metadata : ColumnMetadata)
    (config : AnalysisConfig) : OutlierAnalysis :=
  if ¬ (metadata.data_type = "integer" ∨ metadata.data_type = "float") then
    { outlier_count := 0
      outlier_percentage := 0
      lower_bound := none
      upper_bound := none
      outlier_values := []
      handling_strategy := OutlierHandling.LEAVE_AS_IS
      rationale := "Non-numeric data type (" ++ metadata.data_type ++
        ") - no outlier detection" }
  else
    let detected := detect_outliers_iqr series config.iqr_multiplier
    let outlier_values := detected.1
    let lower_bound := detected.2.1
    let upper_bound := detected.2.2
    let outlier_count := outlier_values.length
    let total_non_null := (series.filterMap id).length
    let outlier_percentage : ℚ :=
      if total_non_null > 0 then (outlier_count : ℚ) / (total_non_null : ℚ)
      else 0
    let suggested := suggest_outlier_handling outlier_count outlier_percentage
      lower_bound upper_bound metadata config
    { outlier_count := outlier_count
      outlier_percentage := outlier_percentage
      lower_bound := lower_bound
      upper_bound := upper_bound
      outlier_values := outlier_values.take 10
      handling_strategy := suggested.1
      rationale := suggested.2 }

/-- First-match evaluation of an ordered list of guard/outcome pairs with a
default outcome, the shape the spec prescribes for the strategy selector
("an explicit ordered list of predicate→outcome pairs evaluated
top-to-bottom with first-match semantics"). -/
def firstMatch {α : Type} : List (Bool × α) → α → α
  | [], d => d
  | (c, r) :: rest, d => if c then r else firstMatch rest d

/-- The strategy selector as the spec states it (section 4.3): the eight
rules in their fixed priority order, evaluated first-match-wins. Rule 5 is
worded as in the spec — it fires exactly when a declared business bound is
violated by a statistical bound — and rule 8 is the catch-all default. -/
def selectorSpec (outlier_count : ℕ) (outlier_percentage : ℚ)
    (lower_bound upper_bound : Option ℚ)
    (metadata : ColumnMetadata) (config : AnalysisConfig) :
    OutlierHandling × String :=
  firstMatch [
    (decide (outlier_count = 0),
      (OutlierHandling.LEAVE_AS_IS, "No outliers detected")),
    (decide (outlier_percentage > 1/5),
      (OutlierHandling.LEAVE_AS_IS,
        "High outlier percentage (" ++ formatPct outlier_percentage ++
        ") suggests potential data distribution issue - investigate before handling")),
    (metadata.unique_flag,
      (OutlierHandling.LEAVE_AS_IS,
        "Unique identifier column - outliers should not be modified")),
    (decide (metadata.data_type = "categorical"),
      (OutlierHandling.LEAVE_AS_IS,
        "Categorical data - outliers represent valid categories")),
    (violatesBusinessRules metadata lower_bound upper_bound,
      (OutlierHandling.CAP_TO_BOUNDS,
        "Outliers violate business rules (min: " ++ formatOptQ metadata.min_value ++
        ", max: " ++ formatOptQ metadata.max_value ++ ") - cap to valid range")),
    (decide (outlier_percentage < config.outlier_threshold) &&
        (decide (metadata.data_type = "integer") || decide (metadata.data_type = "float")),
      (OutlierHandling.CAP_TO_BOUNDS,
        "Low outlier percentage (" ++ formatPct outlier_percentage ++
        ") - cap to statistical bounds to preserve data distribution")),
    (decide (outlier_percentage < 1/10),
      (OutlierHandling.CONVERT_TO_NAN,
        "Medium outlier percentage (" ++ formatPct outlier_percentage ++
        ") - convert to NaN for imputation to avoid bias"))]
    (OutlierHandling.LEAVE_AS_IS,
      "Outlier percentage (" ++ formatPct outlier_percentage ++
      ") requires manual review")

/-- A business-rule violation can only be detected when some business bound
is declared, so the code's extra `is not None` guard in front of
`violates_business_rules` is redundant. -/
theorem businessGuard_redundant (metadata : ColumnMetadata)
    (lower_bound upper_bound : Option ℚ) :
    ((metadata.min_value.isSome || metadata.max_value.isSome) &&
      violatesBusinessRules metadata lower_bound upper_bound) =
      violatesBusinessRules metadata lower_bound upper_bound := by
  unfold violatesBusinessRules
  cases metadata.min_value <;> cases metadata.max_value <;>
    cases lower_bound <;> cases upper_bound <;> simp

/-- C1: for every input tuple `(outlier_count, outlier_percentage,
lower_bound, upper_bound)`, column metadata and configuration, the code's
strategy selector returns exactly the one `(strategy, rationale)` pair
obtained by evaluating the spec's eight rules in their fixed priority
order with first-match-wins semantics. -/
theorem suggest_outlier_handling_eq_ruleTable (outlier_count : ℕ)
    (outlier_percentage : ℚ) (lower_bound upper_bound : Option ℚ)
    (metadata : ColumnMetadata) (config : AnalysisConfig) :
    suggest_outlier_handling outlier_count outlier_percentage
        lower_bound upper_bound metadata config =
      selectorSpec outlier_count outlier_percentage
        lower_bound upper_bound metadata config := by
  rw [suggest_outlier_handling, selectorSpec]
  simp only [firstMatch, businessGuard_redundant, decide_eq_true_eq,
    Bool.or_eq_true, Bool.and_eq_true]

/-- The lower IQR fence from the spec: `lower = Q1 - m·IQR` with
`IQR = Q3 - Q1` and Q1, Q3 the 25th and 75th percentiles. -/
def iqrLower (clean : List ℚ) (m : ℚ) : ℚ :=
  quantileLinear clean (1/4) -
    m * (quantileLinear clean (3/4) - quantileLinear clean (1/4))

/-- The upper IQR fence from the spec: `upper = Q3 + m·IQR`. -/
def iqrUpper (clean : List ℚ) (m : ℚ) : ℚ :=
  quantileLinear clean (3/4) +
    m * (quantileLinear clean (3/4) - quantileLinear clean (1/4))

/-- C2: on a sequence with at least one non-missing value and any
multiplier `m > 0`, the IQR detector returns the bounds
`Q1 - m·IQR` and `Q3 + m·IQR` built from the linearly interpolated 25th
and 75th percentiles of the cleaned sequence, and its outlier list is
exactly the cleaned values strictly outside those bounds, kept in their
original relative order (a sublist of the cleaned sequence). -/
theorem detect_outliers_iqr_spec (series : List (Option ℚ)) (m : ℚ)
    (hm : 0 < m) (hne : series.filterMap id ≠ []) :
    detect_outliers_iqr series m =
      ((series.filterMap id).filter
          (fun x => decide (x < iqrLower (series.filterMap id) m) ||
            decide (x > iqrUpper (series.filterMap id) m)),
        some (iqrLower (series.filterMap id) m),
        some (iqrUpper (series.filterMap id) m)) ∧
    (detect_outliers_iqr series m).1.Sublist (series.filterMap id) ∧
    ∀ x : ℚ, x ∈ (detect_outliers_iqr series m).1 ↔
      x ∈ series.filterMap id ∧
        (x < iqrLower (series.filterMap id) m ∨
          x > iqrUpper (series.filterMap id) m) := by
  have hlen : ¬ (series.filterMap id).length = 0 := by
    simpa [List.length_eq_zero] using hne
  have heq : detect_outliers_iqr series m =
      ((series.filterMap id).filter
          (fun x => decide (x < iqrLower (series.filterMap id) m) ||
            decide (x > iqrUpper (series.filterMap id) m)),
        some (iqrLower (series.filterMap id) m),
        some (iqrUpper (series.filterMap id) m)) := by
    simp only [detect_outliers_iqr, iqrLower, iqrUpper]
    rw [if_neg hlen]
  refine ⟨heq, ?_, ?_⟩
  · rw [heq]
    exact List.filter_sublist _
  · intro x
    rw [heq]
    simp [List.mem_filter, decide_eq_true_eq]

/-- Witness for C2 on the column `[1, 2, 3, 4, 100]` with multiplier 1.5:
Q1 = 2, Q3 = 4, fences -1 and 7, outliers `[100]`. -/
theorem detect_outliers_iqr_spec_witness :
    detect_outliers_iqr [some 1, some 2, some 3, some 4, some 100] (3/2) =
      ([100], some (-1), some 7) := by
  rw [(detect_outliers_iqr_spec [some 1, some 2, some 3, some 4, some 100]
    (3/2) (by norm_num) (by simp)).1]
  norm_num [iqrLower, iqrUpper, quantileLinear, List.insertionSort,
    List.orderedInsert, List.filterMap, List.filter, List.getD,
    Int.toNat_ofNat, Int.toNat]

/-- C3: whichever input `analyze_outliers` receives, a result with zero
outlier count carries percentage 0 and the leave-as-is strategy. -/
theorem analyze_outliers_zero_count (series : List (Option ℚ))
    (metadata : ColumnMetadata) (config : AnalysisConfig)
    (h : (analyze_outliers series metadata config).outlier_count = 0) :
    (analyze_outliers series metadata config).outlier_percentage = 0 ∧
    (analyze_outliers series metadata config).handling_strategy =
      OutlierHandling.LEAVE_AS_IS := by
  by_cases hdt : metadata.data_type = "integer" ∨ metadata.data_type = "float"
  · simp only [analyze_outliers, if_neg (not_not_intro hdt)] at h ⊢
    exact ⟨by simp [h], by simp [h, suggest_outlier_handling]⟩
  · simp [analyze_outliers, hdt]

/-- Witness for C3 on the outlier-free integer column `[1, 2, 3, 4, 5]`. -/
theorem analyze_outliers_zero_count_witness :
    (analyze_outliers [some 1, some 2, some 3, some 4, some 5]
        ⟨"integer", false, none, none⟩ ⟨3/2, 1/20⟩).outlier_percentage = 0 ∧
    (analyze_outliers [some 1, some 2, some 3, some 4, some 5]
        ⟨"integer", false, none, none⟩ ⟨3/2, 1/20⟩).handling_strategy =
      OutlierHandling.LEAVE_AS_IS :=
  analyze_outliers_zero_count _ _ _ (by
    norm_num [analyze_outliers, detect_outliers_iqr, quantileLinear,
      List.insertionSort, List.orderedInsert, List.filterMap, List.filter,
      List.getD, Int.toNat_ofNat, Int.toNat])

/-- C4: for a numeric column the reported count is the length of the full
outlier list and the percentage is count over non-missing total (0 when
that total is 0), while the reported sample is the first-10 prefix of the
full list, so truncation never touches count or percentage and the sample
never exceeds 10 entries. -/
theorem analyze_outliers_count_pct (series : List (Option ℚ))
    (metadata : ColumnMetadata) (config : AnalysisConfig)
    (hdt : metadata.data_type = "integer" ∨ metadata.data_type = "float") :
    (analyze_outliers series metadata config).outlier_count =
      (detect_outliers_iqr series config.iqr_multiplier).1.length ∧
    (analyze_outliers series metadata config).outlier_percentage =
      (if 0 < (series.filterMap id).length
        then ((detect_outliers_iqr series config.iqr_multiplier).1.length : ℚ) /
          ((series.filterMap id).length : ℚ)
        else 0) ∧
    (analyze_outliers series metadata config).outlier_values =
      (detect_outliers_iqr series config.iqr_multiplier).1.take 10 ∧
    (analyze_outliers series metadata config).outlier_values.length ≤ 10 := by
  simp only [analyze_outliers, if_neg (not_not_intro hdt), List.length_take,
    eq_self_iff_true, true_and]
  omega

/-- Witness for C4 on the integer column `[1, 2, 3, 4, 5]`. -/
theorem analyze_outliers_count_pct_witness :
    (analyze_outliers [some 1, some 2, some 3, some 4, some 5]
        ⟨"integer", false, none, none⟩ ⟨3/2, 1/20⟩).outlier_values =
      (detect_outliers_iqr [some 1, some 2, some 3, some 4, some 5]
        (⟨3/2, 1/20⟩ : AnalysisConfig).iqr_multiplier).1.take 10 :=
  (analyze_outliers_count_pct _ _ _ (Or.inl rfl)).2.2.1

/-- C5: a column whose declared type is neither integer nor float skips
detection entirely: zero count, zero percentage, undefined bounds, empty
sample, leave-as-is, and a rationale naming the non-numeric type,
whatever the values are. -/
theorem analyze_outliers_non_numeric (series : List (Option ℚ))
    (metadata : ColumnMetadata) (config : AnalysisConfig)
    (h1 : metadata.data_type ≠ "integer") (h2 : metadata.data_type ≠ "float") :
    analyze_outliers series metadata config =
      { outlier_count := 0
        outlier_percentage := 0
        lower_bound := none
        upper_bound := none
        outlier_values := []
        handling_strategy := OutlierHandling.LEAVE_AS_IS
        rationale := "Non-numeric data type (" ++ metadata.data_type ++
          ") - no outlier detection" } := by
  have hdt : ¬ (metadata.data_type = "integer" ∨ metadata.data_type = "float") := by
    rw [not_or]
    exact ⟨h1, h2⟩
  simp only [analyze_outliers, if_pos hdt]

/-- Witness for C5 on a categorical column holding extreme values. -/
theorem analyze_outliers_non_numeric_witness :
    analyze_outliers [some 1000, some (-1000), none]
        ⟨"categorical", false, some 0, some 1⟩ ⟨3/2, 1/20⟩ =
      { outlier_count := 0
        outlier_percentage := 0
        lower_bound := none
        upper_bound := none
        outlier_values := []
        handling_strategy := OutlierHandling.LEAVE_AS_IS
        rationale := "Non-numeric data type (categorical) - no outlier detection" } :=
  analyze_outliers_non_numeric _ _ _ (by simp) (by simp)

/-- Counterexample to C6 as stated: metadata declares bounds [0, 100], the
statistical lower bound is -10, the count is positive and the percentage
is below 20%, yet the selected strategy is not cap-to-bounds, because the
column is flagged as a unique identifier and the unique-identifier rule
has higher priority than the business-bounds rule. -/
theorem c6_unique_preempts_business :
    (suggest_outlier_handling 1 (1/20) (some (-10)) (some 50)
        { data_type := "integer", unique_flag := true,
          min_value := some 0, max_value := some 100 }
        { iqr_multiplier := 3/2, outlier_threshold := 1/100 }).1 ≠
      OutlierHandling.CAP_TO_BOUNDS := by
  norm_num [suggest_outlier_handling]
  decide

/-- C6 (amended): when the column is not a unique identifier and not
categorical, a positive count with percentage at most 20% and a declared
business bound violated by a statistical bound select cap-to-bounds, with
a rationale naming both declared bounds. -/
theorem suggest_business_violation (outlier_count : ℕ)
    (outlier_percentage : ℚ) (lower_bound upper_bound : Option ℚ)
    (metadata : ColumnMetadata) (config : AnalysisConfig)
    (hcnt : outlier_count ≠ 0) (hpct : outlier_percentage ≤ 1/5)
    (huniq : metadata.unique_flag = false)
    (hcat : metadata.data_type ≠ "categorical")
    (hviol : violatesBusinessRules metadata lower_bound upper_bound = true) :
    suggest_outlier_handling outlier_count outlier_percentage
        lower_bound upper_bound metadata config =
      (OutlierHandling.CAP_TO_BOUNDS,
        "Outliers violate business rules (min: " ++ formatOptQ metadata.min_value ++
        ", max: " ++ formatOptQ metadata.max_value ++ ") - cap to valid range") := by
  have hpct' : ¬ (outlier_percentage > 1/5) := not_lt.mpr hpct
  rw [suggest_outlier_handling]
  rw [if_neg hcnt, if_neg hpct', if_neg (by simp [huniq]), if_neg hcat,
    if_pos (by rw [businessGuard_redundant]; exact hviol)]

/-- Witness for the amended C6: declared bounds [0, 100], statistical
lower bound -10, one outlier at 5% on a non-unique integer column. -/
theorem suggest_business_violation_witness :
    suggest_outlier_handling 1 (1/20) (some (-10)) (some 50)
        { data_type := "integer", unique_flag := false,
          min_value := some 0, max_value := some 100 }
        { iqr_multiplier := 3/2, outlier_threshold := 1/100 } =
      (OutlierHandling.CAP_TO_BOUNDS,
        "Outliers violate business rules (min: " ++ formatOptQ (some 0) ++
        ", max: " ++ formatOptQ (some 100) ++ ") - cap to valid range") :=
  suggest_business_violation 1 (1/20) (some (-10)) (some 50) _ _
    (by norm_num) (by norm_num) rfl (by simp)
    (by norm_num [violatesBusinessRules])

/-- C7: a unique-identifier column is always left as is once outliers are
detected — whatever the percentage, the configuration, and the declared
business bounds, violated or not. -/
theorem suggest_unique_leave (outlier_count : ℕ) (outlier_percentage : ℚ)
    (lower_bound upper_bound : Option ℚ) (metadata : ColumnMetadata)
    (config : AnalysisConfig) (huniq : metadata.unique_flag = true)
    (hcnt : outlier_count ≠ 0) :
    (suggest_outlier_handling outlier_count outlier_percentage
        lower_bound upper_bound metadata config).1 =
      OutlierHandling.LEAVE_AS_IS := by
  rw [suggest_outlier_handling, if_neg hcnt]
  by_cases hp : outlier_percentage > 1/5
  · rw [if_pos hp]
  · rw [if_neg hp, if_pos huniq]

/-- Witness for C7: a unique integer column whose declared bounds [0, 100]
are violated by the statistical lower bound -10 is still left as is. -/
theorem suggest_unique_leave_witness :
    (suggest_outlier_handling 2 (1/20) (some (-10)) (some 50)
        { data_type := "integer", unique_flag := true,
          min_value := some 0, max_value := some 100 }
        { iqr_multiplier := 3/2, outlier_threshold := 1/10 }).1 =
      OutlierHandling.LEAVE_AS_IS :=
  suggest_unique_leave 2 (1/20) (some (-10)) (some 50) _ _ rfl (by norm_num)

/-- Reading a list whose elements are all `c` at any valid index gives `c`,
whatever the default. -/
theorem getD_const {s : List ℚ} {c : ℚ} (hs : ∀ x ∈ s, x = c) {i : ℕ}
    (h : i < s.length) (d : ℚ) : s.getD i d = c := by
  rw [List.getD_eq_getElem?_getD, List.getElem?_eq_getElem h, Option.getD_some]
  exact hs _ (List.getElem?_mem (List.getElem?_eq_getElem h))

/-- Any quantile (with `0 ≤ q ≤ 1`) of a nonempty constant list is that
constant. -/
theorem quantileLinear_const (l : List ℚ) (c q : ℚ) (hl : l ≠ [])
    (hq0 : 0 ≤ q) (hq1 : q ≤ 1) (hall : ∀ x ∈ l, x = c) :
    quantileLinear l q = c := by
  have hs : ∀ x ∈ List.insertionSort (· ≤ ·) l, x = c := by
    intro x hx
    exact hall x ((List.perm_insertionSort _ l).mem_iff.mp hx)
  have hn : 0 < l.length := List.length_pos.mpr hl
  simp only [quantileLinear]
  set s := List.insertionSort (fun a b : ℚ => a ≤ b) l with hsdef
  have hlen : s.length = l.length := (List.perm_insertionSort _ l).length_eq
  set pos : ℚ := q * ((s.length : ℚ) - 1) with hposdef
  have hsub : (0:ℚ) ≤ (s.length : ℚ) - 1 := by
    rw [sub_nonneg, hlen]
    exact_mod_cast hn
  have h0 : 0 ≤ pos := mul_nonneg hq0 hsub
  have hle : pos ≤ (s.length : ℚ) - 1 := by
    calc pos ≤ 1 * ((s.length : ℚ) - 1) := mul_le_mul_of_nonneg_right hq1 hsub
    _ = (s.length : ℚ) - 1 := one_mul _
  set i : ℤ := ⌊pos⌋ with hidef
  have hi0 : 0 ≤ i := Int.floor_nonneg.mpr h0
  have hile : i ≤ (s.length : ℤ) - 1 := by
    have h1 : (i : ℚ) ≤ (s.length : ℚ) - 1 := le_trans (Int.floor_le pos) hle
    exact_mod_cast h1
  have hidx : i.toNat < s.length := by omega
  have hlo : s.getD i.toNat 0 = c := getD_const hs hidx 0
  have hhi : s.getD (i.toNat + 1) (s.getD i.toNat 0) = c := by
    by_cases h2 : i.toNat + 1 < s.length
    · exact getD_const hs h2 _
    · rw [List.getD_eq_getElem?_getD, List.getElem?_eq_none (by omega),
        Option.getD_none]
      exact hlo
  rw [hhi, hlo]
  ring

/-- C8: when the computed IQR is zero (Q3 = Q1, the constant-column
degenerate case), both fences collapse to Q1 — whatever the multiplier —
and every cleaned value different from Q1 lands in the outlier list;
moreover on a constant column Q1 is exactly that constant. -/
theorem detect_outliers_iqr_degenerate (series : List (Option ℚ)) (m : ℚ)
    (hne : series.filterMap id ≠ [])
    (hiqr : quantileLinear (series.filterMap id) (3/4) =
      quantileLinear (series.filterMap id) (1/4)) :
    (detect_outliers_iqr series m).2.1 =
      some (quantileLinear (series.filterMap id) (1/4)) ∧
    (detect_outliers_iqr series m).2.2 =
      some (quantileLinear (series.filterMap id) (1/4)) ∧
    (∀ x ∈ series.filterMap id,
      x ≠ quantileLinear (series.filterMap id) (1/4) →
        x ∈ (detect_outliers_iqr series m).1) ∧
    ∀ c : ℚ, (∀ x ∈ series.filterMap id, x = c) →
      quantileLinear (series.filterMap id) (1/4) = c := by
  have hlen : ¬ (series.filterMap id).length = 0 := by
    simpa [List.length_eq_zero] using hne
  simp only [detect_outliers_iqr]
  rw [if_neg hlen]
  simp only [hiqr, sub_self, mul_zero, sub_zero, add_zero]
  refine ⟨trivial, trivial, ?_, ?_⟩
  · intro x hx hxne
    refine List.mem_filter.mpr ⟨hx, ?_⟩
    rcases lt_or_gt_of_ne hxne with h | h
    · rw [Bool.or_eq_true]
      exact Or.inl (decide_eq_true h)
    · rw [Bool.or_eq_true]
      exact Or.inr (decide_eq_true h)
  · intro c hc
    exact quantileLinear_const _ c _ hne (by norm_num) (by norm_num) hc

/-- Witness for C8: in `[5, 5, 5, 5, 9]` the quartiles coincide (Q1 = Q3
= 5), and the value 9, different from the constant, is flagged. -/
theorem detect_outliers_iqr_degenerate_witness :
    9 ∈ (detect_outliers_iqr [some 5, some 5, some 5, some 5, some 9]
      (3/2)).1 := by
  have h := detect_outliers_iqr_degenerate
    [some 5, some 5, some 5, some 5, some 9] (3/2) (by simp)
    (by norm_num [quantileLinear, List.insertionSort, List.orderedInsert,
      List.filterMap, List.getD, Int.toNat_ofNat, Int.toNat])
  refine h.2.2.1 9 (by simp) ?_
  norm_num [quantileLinear, List.insertionSort, List.orderedInsert,
    List.filterMap, List.getD, Int.toNat_ofNat, Int.toNat]

/-- C9: no input fails — an all-missing (empty cleaned) sequence makes the
IQR detector return an empty outlier list with both bounds undefined and
makes the z-score detector return an empty list, and a numeric column
with zero non-missing values gets percentage 0 instead of a division by
zero. -/
theorem no_failure_paths (series : List (Option ℚ)) (m t : ℚ)
    (metadata : ColumnMetadata) (config : AnalysisConfig) :
    (series.filterMap id = [] →
      detect_outliers_iqr series m = ([], none, none)) ∧
    (series.filterMap id = [] → detect_outliers_zscore series t = []) ∧
    ((metadata.data_type = "integer" ∨ metadata.data_type = "float") →
      series.filterMap id = [] →
      (analyze_outliers series metadata config).outlier_percentage = 0) := by
  refine ⟨?_, ?_, ?_⟩
  · intro h
    simp [detect_outliers_iqr, h]
  · intro h
    simp [detect_outliers_zscore, h]
  · intro hdt h
    simp only [analyze_outliers, if_neg (not_not_intro hdt)]
    simp [h]

/-- Witness for C9 on the all-missing column `[None]`. -/
theorem no_failure_paths_witness :
    detect_outliers_iqr [(none : Option ℚ)] (3/2) = ([], none, none) ∧
    detect_outliers_zscore [(none : Option ℚ)] 3 = [] ∧
    (analyze_outliers [(none : Option ℚ)] ⟨"float", false, none, none⟩
      ⟨3/2, 1/20⟩).outlier_percentage = 0 := by
  have h := no_failure_paths [(none : Option ℚ)] (3/2) 3
    ⟨"float", false, none, none⟩ ⟨3/2, 1/20⟩
  exact ⟨h.1 (by simp), h.2.1 (by simp), h.2.2 (Or.inr rfl) (by simp)⟩

/-- C10: a sequence whose non-missing values are all equal has variance 0;
every z-score is then NaN (0/0) and the strict comparison with the
threshold is false, so the z-score detector flags nothing. -/
theorem detect_outliers_zscore_constant (series : List (Option ℚ))
    (threshold c : ℚ) (hne : series.filterMap id ≠ [])
    (hall : ∀ x ∈ series.filterMap id, x = c) :
    detect_outliers_zscore series threshold = [] := by
  have hlen : ¬ (series.filterMap id).length = 0 := by
    simpa [List.length_eq_zero] using hne
  have hn0 : ((series.filterMap id).length : ℚ) ≠ 0 := by
    exact_mod_cast hlen
  simp only [detect_outliers_zscore]
  rw [if_neg hlen]
  have hsum : (series.filterMap id).sum = (series.filterMap id).length • c :=
    List.sum_eq_card_nsmul _ _ hall
  have hmean : (series.filterMap id).sum / ((series.filterMap id).length : ℚ) = c := by
    rw [hsum, nsmul_eq_mul]
    exact mul_div_cancel_left₀ c hn0
  have hvar : ((series.filterMap id).map fun x =>
      (x - (series.filterMap id).sum / ((series.filterMap id).length : ℚ)) ^ 2).sum
        = 0 := by
    apply List.sum_eq_zero
    intro y hy
    rcases List.mem_map.1 hy with ⟨x, hx, rfl⟩
    rw [hmean, hall x hx, sub_self]
    exact zero_pow (by norm_num)
  rw [if_pos (by rw [hvar]; exact zero_div _)]

/-- Witness for C10 on the constant column `[5, 5, 5]`. -/
theorem detect_outliers_zscore_constant_witness :
    detect_outliers_zscore [some 5, some 5, some 5] 3 = [] :=
  detect_outliers_zscore_constant _ 3 5 (by simp)
    (by intro x hx; simpa using hx)
